import Mathlib

/-!
Shallow embedding of the setup wizard API module
(backend/app/api/setup.py) of teddycloud-custom-tag-helper.

Each endpoint is embedded as a total Lean function over an explicit
environment record.  Every primitive step of the Python code that can
raise an exception (a filesystem probe, a settings attribute access, a
module import, an HTTP request, a JSON parse, a directory creation, a
file write) is a field of the environment of type `Except String _`:
the `error` case carries `str(e)`, the description of the raised
exception.  A `try/except` block of the source becomes a `match` on
those fields; a bare `except: pass` swallows the error, the outer
`except Exception` handlers convert it exactly as the source does
(into a fallback `SetupStatus`, a `TeddyCloudTestResult`, or a raised
`HTTPException` with status code 500).  Response models become
structures with the same fields and defaults; the YAML document built
by `save_configuration` is embedded as an ordered key/value tree so
that presence and order of keys is observable.
-/

namespace SetupApi

/-- JSON values, as produced by `json.load` / `response.json()`. -/
inductive JsonValue where
  | jnull : JsonValue
  | jbool : Bool → JsonValue
  | jnum : Int → JsonValue
  | jstr : String → JsonValue
  | jarr : List JsonValue → JsonValue
  | jobj : List (String × JsonValue) → JsonValue

/-- `isinstance(x, list)` on a JSON value. -/
def isJsonList : JsonValue → Bool
  | .jarr _ => true
  | _ => false

/-- `fastapi.HTTPException`, as raised by the endpoints on fatal errors. -/
structure HTTPException where
  status_code : Nat
  detail : String
deriving Repr, DecidableEq

/-! ## Response models (the pydantic BaseModel classes) -/

/-- Setup status response (`class SetupStatus`). -/
structure SetupStatus where
  setup_required : Bool
  reason : Option String := none
deriving Repr, DecidableEq

/-- Detected data access options (`class DataAccessDetection`). -/
structure DataAccessDetection where
  volume_available : Bool
  volume_path : Option String := none
  taf_files_found : Nat := 0
  tonies_found : Nat := 0
  image_paths : List String := []
deriving Repr, DecidableEq

/-- One normalized device entry `\x7b"id": b.get("id"), "name": b.get("name", "Unknown")\x7d`:
`id` is `none` when the key is missing (Python `dict.get` returning `None`),
`name` falls back to the literal `"Unknown"`. -/
structure TonieBox where
  id : Option JsonValue
  name : JsonValue

/-- TeddyCloud connection test result (`class TeddyCloudTestResult`). -/
structure TeddyCloudTestResult where
  success : Bool
  error : Option String := none
  version : Option String := none
  boxes : List TonieBox := []

/-- Complete setup configuration (`class SetupConfiguration`), the flat
operator-supplied input of `save_configuration`. -/
structure SetupConfiguration where
  teddycloud_url : String
  custom_img_path : String
  custom_img_json_path : String
  use_smb : Bool := false
  ui_language : String := "en"
  default_language : String := "de-de"
  auto_parse_taf : Bool := true
  selected_box : Option String := none

/-! ## check_setup_status (GET /setup/status) -/

/-- Outcome of one HTTP GET: either a response (status code, body text,
and the parse of the body when `.json()` is called on it) or a raised
exception with its description. -/
inductive HttpOutcome where
  | resp : Nat → String → Except String JsonValue → HttpOutcome
  | exn : String → HttpOutcome

/-- Environment of `check_setup_status`: each step of the evaluation that
can raise is an explicit `Except` value. `configFileExists` is the
`Path("/config/config.yaml").exists()` call, `teddycloudUrl` the
`settings.teddycloud.url` access, `httpxImport` the `import httpx`
statement, and `probe` the guarded GET to `/api/toniesCustomJson`. -/
structure StatusEnv where
  configFileExists : Except String Bool
  teddycloudUrl : Except String String
  httpxImport : Except String Unit
  probe : HttpOutcome

/-- `check_setup_status` (lines 64-108).  The second component of the
result records whether the network probe was reached, so that theorems
can state that an evaluation performed no network call.  The outer
`except Exception` of the source is the conversion of every `error`
channel into `SetupStatus(setup_required=True, reason=str(e))`; the
inner bare `except` around the GET is the `HttpOutcome.exn` branch. -/
def check_setup_status (env : StatusEnv) : SetupStatus × Bool :=
  match env.configFileExists with
  | .error e => ({ setup_required := true, reason := some e }, false)
  | .ok false =>
      ({ setup_required := true, reason := some "Configuration file not found" }, false)
  | .ok true =>
    match env.teddycloudUrl with
    | .error e => ({ setup_required := true, reason := some e }, false)
    | .ok url =>
      if url = "http://docker" then
        match env.httpxImport with
        | .error e => ({ setup_required := true, reason := some e }, false)
        | .ok _ =>
          match env.probe with
          | .exn _ =>
              ({ setup_required := true, reason := some "Cannot connect to TeddyCloud" }, true)
          | .resp status _ _ =>
            if status ≠ 200 then
              ({ setup_required := true,
                 reason := some "TeddyCloud connection not configured" }, true)
            else
              ({ setup_required := false }, true)
      else
        ({ setup_required := false }, false)

/-! ## detect_data_access (GET /setup/detect) -/

/-- Environment of `detect_data_access`: one field per filesystem probe of
the source, in source order.  `Path.exists` propagates some `OSError`s
(for example a permission error while stating the path), hence the
`Except` type on every probe; `tafFiles` is the length of
`list(library_path.rglob("*.taf"))` and `toniesLoad` the combined
`open` + `json.load` of the catalog file. -/
structure DetectEnv where
  dataExists : Except String Bool
  dataIsDir : Except String Bool
  configExists : Except String Bool
  libraryExists : Except String Bool
  tafFiles : Except String Nat
  toniesFileExists : Except String Bool
  toniesLoad : Except String JsonValue
  ownPicsExists : Except String Bool
  customImgExists : Except String Bool

/-- The all-negative result `DataAccessDetection(volume_available=False)`
that the handler starts from and returns unchanged when the volume
structure is absent. -/
def emptyDetection : DataAccessDetection :=
  { volume_available := false }

/-- The TAF count sub-check (lines 133-138): the inner `try` swallows any
exception of `rglob`, leaving the count at its default 0. -/
def tafCountOf (env : DetectEnv) : Nat :=
  match env.tafFiles with
  | .ok n => n
  | .error _ => 0

/-- The catalog sub-check (lines 140-149): missing file, any exception of
the exists probe or of `open`/`json.load`, and non-list JSON all leave
the count at 0; a JSON list contributes its length. -/
def toniesCountOf (env : DetectEnv) : Nat :=
  match env.toniesFileExists with
  | .error _ => 0
  | .ok false => 0
  | .ok true =>
    match env.toniesLoad with
    | .error _ => 0
    | .ok (.jarr xs) => xs.length
    | .ok _ => 0

/-- The image directory probe (lines 151-157): each of the two fixed
candidates is appended, in source order, when it exists. -/
def imageDirsOf (ownPics customImg : Bool) : List String :=
  (if ownPics then ["/data/library/own/pics"] else []) ++
    (if customImg then ["/data/www/custom_img"] else [])

/-- The body of the outer `try` of `detect_data_access` (lines 119-159):
an `error` value is an exception escaping to the outer handler.  The
two inner `try` blocks (TAF count, catalog) are absorbed by
`tafCountOf` and `toniesCountOf`, which never fail; every other probe
propagates its exception. -/
def detectBody (env : DetectEnv) : Except String DataAccessDetection :=
  match env.dataExists with
  | .error e => .error e
  | .ok false => .ok emptyDetection
  | .ok true =>
    match env.dataIsDir with
    | .error e => .error e
    | .ok false => .ok emptyDetection
    | .ok true =>
      match env.configExists with
      | .error e => .error e
      | .ok false => .ok emptyDetection
      | .ok true =>
        match env.libraryExists with
        | .error e => .error e
        | .ok false => .ok emptyDetection
        | .ok true =>
          match env.ownPicsExists with
          | .error e => .error e
          | .ok ownPics =>
            match env.customImgExists with
            | .error e => .error e
            | .ok customImg =>
              .ok { volume_available := true
                    volume_path := some "/data"
                    taf_files_found := tafCountOf env
                    tonies_found := toniesCountOf env
                    image_paths := imageDirsOf ownPics customImg }

/-- `detect_data_access` (lines 111-163): the outer `except Exception`
re-raises any escaping exception as `HTTPException(status_code=500,
detail=str(e))`. -/
def detect_data_access (env : DetectEnv) : Except HTTPException DataAccessDetection :=
  match detectBody env with
  | .ok r => .ok r
  | .error e => .error { status_code := 500, detail := e }

/-! ## test_teddycloud_connection (POST /setup/test-teddycloud) -/

/-- Environment of `test_teddycloud_connection`: the outcome of the
primary GET to `/api/toniesCustomJson` and of the secondary GET to
`/api/tonieboxes` (the latter only consulted when the primary returns
status 200). -/
structure ProbeEnv where
  primary : HttpOutcome
  secondary : HttpOutcome

/-- Normalization of one device entry of the boxes list: a JSON object
maps to `\x7bid, name\x7d` with the `"Unknown"` fallback; anything else makes
the list comprehension raise (`b.get` on a non-dict), which the inner
`except` then swallows. -/
def normalizeBox : JsonValue → Option TonieBox
  | .jobj fields =>
      some { id := List.lookup "id" fields
             name := (List.lookup "name" fields).getD (.jstr "Unknown") }
  | _ => none

/-- Normalization of the whole boxes list; `none` when any entry is not
an object. -/
def normalizeBoxes (xs : List JsonValue) : Option (List TonieBox) :=
  xs.mapM normalizeBox

/-- The best-effort boxes sub-request (lines 190-200): any exception, a
non-200 status, a body that does not parse, a non-list body, or a list
entry that is not an object all leave `boxes = []`. -/
def getBoxes (secondary : HttpOutcome) : List TonieBox :=
  match secondary with
  | .exn _ => []
  | .resp status _ body =>
    if status = 200 then
      match body with
      | .error _ => []
      | .ok j =>
        match j with
        | .jarr xs => (normalizeBoxes xs).getD []
        | _ => []
    else []

/-- `test_teddycloud_connection` (lines 166-212).  A non-200 primary
response yields `success=False` with the f-string
`HTTP \x7bstatus_code\x7d: \x7btext[:100]\x7d` as error; a raised exception yields
`success=False` with its description; a 200 primary response yields
`success=True` with the best-effort boxes list. -/
def test_teddycloud_connection (env : ProbeEnv) : TeddyCloudTestResult :=
  match env.primary with
  | .exn e => { success := false, error := some e }
  | .resp status text _ =>
    if status ≠ 200 then
      { success := false
        error := some ("HTTP " ++ toString status ++ ": " ++ String.mk (text.data.take 100)) }
    else
      { success := true, boxes := getBoxes env.secondary }

/-! ## save_configuration (POST /setup/save) -/

/-- Ordered YAML values as written by `yaml.dump(config_data,
sort_keys=False)`: a mapping keeps insertion order, so presence and
position of keys is observable. -/
inductive YamlValue where
  | ynull : YamlValue
  | ybool : Bool → YamlValue
  | ynat : Nat → YamlValue
  | ystr : String → YamlValue
  | ylist : List YamlValue → YamlValue
  | ymap : List (String × YamlValue) → YamlValue

/-- Lookup of a key in a YAML mapping. -/
def yamlLookup (v : YamlValue) (k : String) : Option YamlValue :=
  match v with
  | .ymap fields => List.lookup k fields
  | _ => none

/-- The top-level keys of a YAML mapping, in insertion order. -/
def yamlKeys (v : YamlValue) : List String :=
  match v with
  | .ymap fields => fields.map Prod.fst
  | _ => []

/-- `if config.selected_box:` (lines 260-262): the key is appended to the
`app` mapping only when the optional value is present and truthy, i.e.
a non-empty string. -/
def appendSelectedBox (fields : List (String × YamlValue)) :
    Option String → List (String × YamlValue)
  | some s => if s.isEmpty then fields else fields ++ [("selected_box", .ystr s)]
  | none => fields

/-- The `config_data` document built by `save_configuration`
(lines 226-262), with the four sections and every fixed default in
source order. -/
def build_config_data (config : SetupConfiguration) : YamlValue :=
  .ymap
    [ ("teddycloud", .ymap
        [ ("url", .ystr config.teddycloud_url)
        , ("api_base", .ystr "/api")
        , ("timeout", .ynat 30) ])
    , ("volumes", .ymap
        [ ("enabled", .ybool (!config.use_smb))
        , ("config_path", .ystr "/data/config")
        , ("custom_img_path", .ystr config.custom_img_path)
        , ("custom_img_json_path", .ystr config.custom_img_json_path)
        , ("library_path", .ystr "/data/library") ])
    , ("app", .ymap (appendSelectedBox
        [ ("auto_parse_taf", .ybool config.auto_parse_taf)
        , ("confirm_before_save", .ybool true)
        , ("auto_reload_config", .ybool true)
        , ("default_language", .ystr config.default_language)
        , ("max_image_size_mb", .ynat 5)
        , ("allowed_image_formats", .ylist [.ystr "jpg", .ystr "jpeg", .ystr "png", .ystr "webp"])
        , ("show_hidden_files", .ybool false)
        , ("recursive_scan", .ybool true) ] config.selected_box))
    , ("advanced", .ymap
        [ ("parse_cover_from_taf", .ybool true)
        , ("extract_track_names", .ybool true)
        , ("log_level", .ystr "INFO")
        , ("cache_taf_metadata", .ybool true)
        , ("cache_ttl_seconds", .ynat 300) ]) ]

/-- Lookup of a key inside a named top-level section of the persisted
document of a given input. -/
def sectionLookup (config : SetupConfiguration) (sec key : String) : Option YamlValue :=
  match yamlLookup (build_config_data config) sec with
  | some v => yamlLookup v key
  | none => none

/-- Environment of `save_configuration`: the two I/O steps that can
fail, `config_file.parent.mkdir(...)` and the `open`/`yaml.dump`
write. -/
structure SaveEnv where
  mkdirOk : Except String Unit
  writeOk : Except String Unit

/-- The success payload of `save_configuration`. -/
structure SaveResponse where
  success : Bool
  message : String
deriving Repr, DecidableEq

/-- `save_configuration` (lines 215-279): on success returns the written
document together with the success payload; an I/O failure is
re-raised by the `except Exception` handler as
`HTTPException(status_code=500, detail=str(e))`. -/
def save_configuration (env : SaveEnv) (config : SetupConfiguration) :
    Except HTTPException (YamlValue × SaveResponse) :=
  match env.mkdirOk with
  | .error e => .error { status_code := 500, detail := e }
  | .ok _ =>
    match env.writeOk with
    | .error e => .error { status_code := 500, detail := e }
    | .ok _ =>
        .ok (build_config_data config,
             { success := true
               message := "Configuration saved. Please restart the application." })

/-! ## Theorems -/

/-- C1: whenever the configuration file exists at its fixed path and the
configured remote URL is readable and differs from the factory default
placeholder `http://docker`, `check_setup_status` returns
`setup_required=false` with no reason, and the network probe is never
reached (second component `false`). -/
theorem status_nondefault_no_probe (env : StatusEnv) (url : String)
    (h1 : env.configFileExists = .ok true)
    (h2 : env.teddycloudUrl = .ok url)
    (h3 : url ≠ "http://docker") :
    check_setup_status env = ({ setup_required := false, reason := none }, false) := by
  simp [check_setup_status, h1, h2, h3]

/-- Witness for C1 at a concrete environment with a non-default URL. -/
theorem status_nondefault_no_probe_witness :
    check_setup_status
      { configFileExists := .ok true
        teddycloudUrl := .ok "http://teddycloud.local"
        httpxImport := .ok ()
        probe := .exn "unreachable" } =
      ({ setup_required := false, reason := none }, false) :=
  status_nondefault_no_probe _ "http://teddycloud.local" rfl rfl (by decide)

/-- C2: an unexpected failure at any step of the evaluation — the config
file existence probe, the settings access, or the `httpx` import — is
converted into `SetupStatus` with `setup_required=true` and the failure
description as reason.  The return type of `check_setup_status` itself
is `SetupStatus × Bool` with no failure channel, so no error ever
propagates to the caller. -/
theorem status_failure_converted (env : StatusEnv) (e : String) :
    (env.configFileExists = .error e →
       (check_setup_status env).1 = { setup_required := true, reason := some e }) ∧
    (env.configFileExists = .ok true → env.teddycloudUrl = .error e →
       (check_setup_status env).1 = { setup_required := true, reason := some e }) ∧
    (env.configFileExists = .ok true → env.teddycloudUrl = .ok "http://docker" →
       env.httpxImport = .error e →
       (check_setup_status env).1 = { setup_required := true, reason := some e }) := by
  refine ⟨fun h1 => ?_, fun h1 h2 => ?_, fun h1 h2 h3 => ?_⟩
  · simp [check_setup_status, h1]
  · simp [check_setup_status, h1, h2]
  · simp [check_setup_status, h1, h2, h3]

/-- Witness for C2 at a concrete failing environment. -/
theorem status_failure_converted_witness :
    (check_setup_status
      { configFileExists := .error "disk failure"
        teddycloudUrl := .ok "http://docker"
        httpxImport := .ok ()
        probe := .exn "x" }).1 =
      { setup_required := true, reason := some "disk failure" } :=
  (status_failure_converted _ "disk failure").1 rfl

/-- C10: the connection test never populates the `version` field of its
result type, on success or on failure. -/
theorem probe_version_none (env : ProbeEnv) :
    (test_teddycloud_connection env).version = none := by
  rcases env with ⟨primary, secondary⟩
  cases primary with
  | exn e => rfl
  | resp status text body =>
      by_cases h : status = 200 <;> simp [test_teddycloud_connection, h]

/-- C4: a non-200 primary response yields `success=false` with an error
holding the status code and the body excerpt `text[:100]` of at most
100 characters; and every result with `success=false` has an empty
boxes list. -/
theorem probe_non200 (env : ProbeEnv) :
    (∀ status text body, env.primary = .resp status text body → status ≠ 200 →
       test_teddycloud_connection env =
         { success := false
           error := some ("HTTP " ++ toString status ++ ": " ++ String.mk (text.data.take 100))
           version := none
           boxes := [] } ∧
       (String.mk (text.data.take 100)).length ≤ 100) ∧
    ((test_teddycloud_connection env).success = false →
       (test_teddycloud_connection env).boxes = []) := by
  constructor
  · intro status text body hp hs
    constructor
    · simp [test_teddycloud_connection, hp, hs]
    · show (text.data.take 100).length ≤ 100
      rw [List.length_take]
      exact min_le_left _ _
  · intro hfail
    rcases env with ⟨primary, secondary⟩
    cases primary with
    | exn e => rfl
    | resp status text body =>
        by_cases h : status = 200
        · simp [test_teddycloud_connection, h] at hfail
        · simp [test_teddycloud_connection, h]

/-- Witness for C4 at a concrete 404 response. -/
theorem probe_non200_witness :
    test_teddycloud_connection
      { primary := .resp 404 "not found" (.error "no json")
        secondary := .exn "x" } =
      { success := false
        error := some ("HTTP " ++ toString 404 ++ ": " ++ String.mk ("not found".data.take 100))
        version := none
        boxes := [] } :=
  ((probe_non200 _).1 404 "not found" (.error "no json") rfl (by decide)).1

/-- A degraded secondary device-list call: a raised exception, a non-200
status, an unparseable body, or a body that is not a JSON list. -/
def secondaryDegraded (o : HttpOutcome) : Prop :=
  (∃ m, o = .exn m) ∨
  (∃ status text body, o = .resp status text body ∧ status ≠ 200) ∨
  (∃ text m, o = .resp 200 text (.error m)) ∨
  (∃ text j, o = .resp 200 text (.ok j) ∧ isJsonList j = false)

/-- C5: a 200 primary response yields `success=true` regardless of the
secondary device-list call; when that call fails, returns non-200, or
returns a non-list body, `boxes` is empty and the verdict stays
`success=true`. -/
theorem probe_primary_200 (env : ProbeEnv) (text : String)
    (body : Except String JsonValue)
    (hp : env.primary = .resp 200 text body) :
    (test_teddycloud_connection env).success = true ∧
    (secondaryDegraded env.secondary →
       test_teddycloud_connection env =
         { success := true, error := none, version := none, boxes := [] }) := by
  constructor
  · simp [test_teddycloud_connection, hp]
  · intro hdeg
    have hboxes : getBoxes env.secondary = [] := by
      rcases hdeg with ⟨m, hm⟩ | ⟨status, t, b, hm, hs⟩ | ⟨t, m, hm⟩ | ⟨t, j, hm, hj⟩
      · simp [getBoxes, hm]
      · simp [getBoxes, hm, hs]
      · simp [getBoxes, hm]
      · rw [hm]
        cases j <;> simp_all [getBoxes, isJsonList]
    simp [test_teddycloud_connection, hp, hboxes]

/-- Witness for C5: a 200 primary with a crashing secondary call. -/
theorem probe_primary_200_witness :
    test_teddycloud_connection
      { primary := .resp 200 "[]" (.ok (.jarr []))
        secondary := .exn "connection refused" } =
      { success := true, error := none, version := none, boxes := [] } :=
  (probe_primary_200 _ "[]" (.ok (.jarr [])) rfl).2 (Or.inl ⟨"connection refused", rfl⟩)

/-- A concrete environment in which the very first filesystem probe of
`detect_data_access` raises (as `Path.exists` does on a permission
error while stating the path). -/
def badDetectEnv : DetectEnv :=
  { dataExists := .error "Permission denied"
    dataIsDir := .ok true
    configExists := .ok true
    libraryExists := .ok true
    tafFiles := .ok 0
    toniesFileExists := .ok false
    toniesLoad := .error ""
    ownPicsExists := .ok false
    customImgExists := .ok false }

/-- C3 counterexample: in a filesystem state where an internal sub-step
fails unexpectedly, `detect_data_access` does not return a result
object at all — it surfaces a server error, `HTTPException` with
status code 500, contradicting the claim that detect never propagates
an error to the caller. -/
theorem detect_raises_counterexample :
    detect_data_access badDetectEnv =
      .error { status_code := 500, detail := "Permission denied" } := rfl

/-- C3 amended: for every filesystem state, `detect_data_access` either
returns a well-formed `DataAccessDetection`, or — when a sub-step
outside the two inner fault-tolerant handlers fails unexpectedly —
surfaces that failure as an HTTP 500 server error carrying its
description; these are the only two outcomes. -/
theorem detect_total_or_500 (env : DetectEnv) :
    (∃ r, detect_data_access env = .ok r) ∨
    (∃ m, detectBody env = .error m ∧
       detect_data_access env = .error { status_code := 500, detail := m }) := by
  rcases h : detectBody env with m | r
  · exact Or.inr ⟨m, rfl, by simp [detect_data_access, h]⟩
  · exact Or.inl ⟨r, by simp [detect_data_access, h]⟩

/-- C6: when every filesystem probe outside the inner handlers answers
without raising, detect returns a result whose `volume_available` is
true exactly when the root mount exists, is a directory, and both the
`config` and `library` subdirectories exist; an absent root and a
partial structure both give back the all-negative result (no volume
path, zero counts, empty image path list). -/
theorem detect_volume_available_iff (env : DetectEnv)
    (de dd ce le op ci : Bool)
    (h1 : env.dataExists = .ok de) (h2 : env.dataIsDir = .ok dd)
    (h3 : env.configExists = .ok ce) (h4 : env.libraryExists = .ok le)
    (h5 : env.ownPicsExists = .ok op) (h6 : env.customImgExists = .ok ci) :
    ∃ r, detect_data_access env = .ok r ∧
      r.volume_available = (de && dd && ce && le) ∧
      (de = false → r = emptyDetection) ∧
      (r.volume_available = false → r = emptyDetection) ∧
      (r.volume_available = true → r.volume_path = some "/data") := by
  cases de <;> cases dd <;> cases ce <;> cases le <;>
    simp [detect_data_access, detectBody, h1, h2, h3, h4, h5, h6, emptyDetection]

/-- Witness for C6: root present but only one required subdirectory. -/
theorem detect_volume_available_iff_witness :
    ∃ r, detect_data_access
      { dataExists := .ok true
        dataIsDir := .ok true
        configExists := .ok true
        libraryExists := .ok false
        tafFiles := .ok 7
        toniesFileExists := .ok true
        toniesLoad := .ok (.jarr [])
        ownPicsExists := .ok true
        customImgExists := .ok true } = .ok r ∧
      r.volume_available = (true && true && true && false) ∧
      (true = false → r = emptyDetection) ∧
      (r.volume_available = false → r = emptyDetection) ∧
      (r.volume_available = true → r.volume_path = some "/data") :=
  detect_volume_available_iff _ true true true false true true rfl rfl rfl rfl rfl rfl

/-- A degraded catalog sub-check: the catalog file is missing, its
existence probe raises, reading or parsing it raises, or it parses to
a non-list JSON value. -/
def catalogDegraded (env : DetectEnv) : Prop :=
  (∃ m, env.toniesFileExists = .error m) ∨
  env.toniesFileExists = .ok false ∨
  (∃ m, env.toniesLoad = .error m) ∨
  (∃ v, env.toniesLoad = .ok v ∧ isJsonList v = false)

/-- C7: with the volume available, a missing, unreadable, malformed or
non-list catalog yields `tonies_found = 0` while every other field of
the result keeps its normal value: the catalog sub-check degrades in
isolation. -/
theorem detect_catalog_degraded (env : DetectEnv) (op ci : Bool)
    (h1 : env.dataExists = .ok true) (h2 : env.dataIsDir = .ok true)
    (h3 : env.configExists = .ok true) (h4 : env.libraryExists = .ok true)
    (h5 : env.ownPicsExists = .ok op) (h6 : env.customImgExists = .ok ci)
    (hcat : catalogDegraded env) :
    detect_data_access env =
      .ok { volume_available := true
            volume_path := some "/data"
            taf_files_found := tafCountOf env
            tonies_found := 0
            image_paths := imageDirsOf op ci } := by
  have hz : toniesCountOf env = 0 := by
    rcases hcat with ⟨m, hm⟩ | hm | ⟨m, hm⟩ | ⟨v, hv, hj⟩
    · simp [toniesCountOf, hm]
    · simp [toniesCountOf, hm]
    · cases he : env.toniesFileExists with
      | ok b => cases b <;> simp [toniesCountOf, he, hm]
      | error m2 => simp [toniesCountOf, he]
    · cases he : env.toniesFileExists with
      | ok b =>
          cases b
          · simp [toniesCountOf, he]
          · cases v <;> simp_all [toniesCountOf, he, hv, isJsonList]
      | error m2 => simp [toniesCountOf, he]
  simp [detect_data_access, detectBody, h1, h2, h3, h4, h5, h6, hz]

/-- Witness for C7: an available volume whose catalog parses to a JSON
object instead of a list. -/
theorem detect_catalog_degraded_witness :
    detect_data_access
      { dataExists := .ok true
        dataIsDir := .ok true
        configExists := .ok true
        libraryExists := .ok true
        tafFiles := .ok 3
        toniesFileExists := .ok true
        toniesLoad := .ok (.jobj [("tonies", .jarr [])])
        ownPicsExists := .ok true
        customImgExists := .ok false } =
      .ok { volume_available := true
            volume_path := some "/data"
            taf_files_found := 3
            tonies_found := 0
            image_paths := ["/data/library/own/pics"] } := by
  have h := detect_catalog_degraded
    { dataExists := .ok true
      dataIsDir := .ok true
      configExists := .ok true
      libraryExists := .ok true
      tafFiles := .ok 3
      toniesFileExists := .ok true
      toniesLoad := .ok (.jobj [("tonies", .jarr [])])
      ownPicsExists := .ok true
      customImgExists := .ok false }
    true false rfl rfl rfl rfl rfl rfl
    (Or.inr (Or.inr (Or.inr ⟨.jobj [("tonies", .jarr [])], rfl, rfl⟩)))
  exact h

/-- C8: for every setup input the persisted document has exactly the four
top-level sections, in order, each fixed-schema key carries its
specified default value, and `volumes.enabled` is the negation of the
input `use_smb` flag.  `save_configuration` writes exactly
`build_config_data config` whenever the two I/O steps succeed. -/
theorem save_document_schema (config : SetupConfiguration) :
    yamlKeys (build_config_data config) = ["teddycloud", "volumes", "app", "advanced"] ∧
    sectionLookup config "teddycloud" "url" = some (.ystr config.teddycloud_url) ∧
    sectionLookup config "teddycloud" "api_base" = some (.ystr "/api") ∧
    sectionLookup config "teddycloud" "timeout" = some (.ynat 30) ∧
    sectionLookup config "volumes" "enabled" = some (.ybool (!config.use_smb)) ∧
    sectionLookup config "volumes" "config_path" = some (.ystr "/data/config") ∧
    sectionLookup config "volumes" "custom_img_path" = some (.ystr config.custom_img_path) ∧
    sectionLookup config "volumes" "custom_img_json_path" =
      some (.ystr config.custom_img_json_path) ∧
    sectionLookup config "volumes" "library_path" = some (.ystr "/data/library") ∧
    sectionLookup config "app" "auto_parse_taf" = some (.ybool config.auto_parse_taf) ∧
    sectionLookup config "app" "confirm_before_save" = some (.ybool true) ∧
    sectionLookup config "app" "auto_reload_config" = some (.ybool true) ∧
    sectionLookup config "app" "default_language" = some (.ystr config.default_language) ∧
    sectionLookup config "app" "max_image_size_mb" = some (.ynat 5) ∧
    sectionLookup config "app" "allowed_image_formats" =
      some (.ylist [.ystr "jpg", .ystr "jpeg", .ystr "png", .ystr "webp"]) ∧
    sectionLookup config "app" "show_hidden_files" = some (.ybool false) ∧
    sectionLookup config "app" "recursive_scan" = some (.ybool true) ∧
    sectionLookup config "advanced" "parse_cover_from_taf" = some (.ybool true) ∧
    sectionLookup config "advanced" "extract_track_names" = some (.ybool true) ∧
    sectionLookup config "advanced" "log_level" = some (.ystr "INFO") ∧
    sectionLookup config "advanced" "cache_taf_metadata" = some (.ybool true) ∧
    sectionLookup config "advanced" "cache_ttl_seconds" = some (.ynat 300) := by
  rcases hsel : config.selected_box with _ | s
  · refine ⟨rfl, ?_⟩
    simp [sectionLookup, yamlLookup, build_config_data, appendSelectedBox, hsel, List.lookup]
  · by_cases hs : s.isEmpty <;>
    · refine ⟨rfl, ?_⟩
      simp [sectionLookup, yamlLookup, build_config_data, appendSelectedBox, hsel, hs,
        List.lookup]

/-- A concrete setup input whose optional device identifier is present
but is the empty string. -/
def cfgEmptyBox : SetupConfiguration :=
  { teddycloud_url := "http://teddycloud.local"
    custom_img_path := "/data/www/custom_img"
    custom_img_json_path := "/data/config/tonies.custom.json"
    selected_box := some "" }

/-- C9 counterexample: a setup input whose `selected_box` is present (it
is `some ""`) produces a persisted document whose application section
has no `selected_box` key at all — the truthiness test of the code
drops a present-but-empty identifier, contradicting the claim that a
present identifier is always nested under the application section. -/
theorem selected_box_counterexample :
    cfgEmptyBox.selected_box = some "" ∧
    (cfgEmptyBox.selected_box).isSome = true ∧
    sectionLookup cfgEmptyBox "app" "selected_box" = none :=
  ⟨rfl, rfl, rfl⟩

/-- C9 amended: a present and non-empty device identifier is nested under
the application section; an absent or empty identifier leaves every
section of the persisted document without a `selected_box` key at all
(not null, not an empty string). -/
theorem selected_box_persistence (config : SetupConfiguration) :
    (∀ s, config.selected_box = some s → s.isEmpty = false →
       sectionLookup config "app" "selected_box" = some (.ystr s)) ∧
    ((config.selected_box = none ∨ ∃ s, config.selected_box = some s ∧ s.isEmpty = true) →
       sectionLookup config "app" "selected_box" = none ∧
       sectionLookup config "teddycloud" "selected_box" = none ∧
       sectionLookup config "volumes" "selected_box" = none ∧
       sectionLookup config "advanced" "selected_box" = none) := by
  constructor
  · intro s hsel hs
    simp [sectionLookup, yamlLookup, build_config_data, appendSelectedBox, hsel, hs,
      List.lookup]
  · intro habs
    rcases habs with hnone | ⟨s, hsel, hs⟩
    · exact ⟨by simp [sectionLookup, yamlLookup, build_config_data, appendSelectedBox,
          hnone, List.lookup], rfl, rfl, rfl⟩
    · exact ⟨by simp [sectionLookup, yamlLookup, build_config_data, appendSelectedBox,
          hsel, hs, List.lookup], rfl, rfl, rfl⟩

/-- Witness for C9 (amended): a concrete non-empty identifier is nested,
and the concrete empty-identifier input has no such key anywhere. -/
theorem selected_box_persistence_witness :
    sectionLookup { teddycloud_url := "http://teddycloud.local"
                    custom_img_path := "/img"
                    custom_img_json_path := "/img.json"
                    selected_box := some "box-1" : SetupConfiguration }
        "app" "selected_box" = some (.ystr "box-1") ∧
    sectionLookup cfgEmptyBox "app" "selected_box" = none :=
  ⟨(selected_box_persistence _).1 "box-1" rfl rfl,
   ((selected_box_persistence cfgEmptyBox).2 (Or.inr ⟨"", rfl, rfl⟩)).1⟩

end SetupApi
